import Mathlib

/-!
Shallow embedding of the music-assistant-client transport and auth layers
(from connection.py, auth.py and auth_helpers.py) together with theorems
checking the natural-language specification against it.
-/

namespace MusicAssistantClient

/-- Detail carried by a CannotConnect error, distinguishing certificate-trust
failures (the ssl.SSLError and ClientConnectorCertificateError branches of
connect) from other connection failures. -/
inductive CannotConnectDetail where
  | certificateTrust
  | other
deriving DecidableEq, Repr

/-- Error taxonomy of the client, from exceptions.py and
music_assistant_models.errors. RuntimeError stands for the plain Python
RuntimeError raised by get_websocket_url on an invalid base URL. -/
inductive MAError where
  | CannotConnect (detail : CannotConnectDetail)
  | ConnectionClosed
  | ConnectionFailed
  | InvalidMessage
  | InvalidState
  | NotConnected
  | RuntimeError
  | LoginFailed
  | AuthenticationFailed
deriving DecidableEq, Repr

deriving instance DecidableEq for Except

/-- Python substring containment (the `in` operator) on lists of characters. -/
def listContains (pat : List Char) : List Char → Bool
  | [] => pat.isEmpty
  | c :: cs => pat.isPrefixOf (c :: cs) || listContains pat cs

/-- Python str.replace for a nonempty pattern `p :: ps`: replaces the
non-overlapping occurrences left to right.  Structured with a fuel argument
(initialised to the input length, which always suffices) so that the
definition is structurally recursive and evaluates in the kernel. -/
def replaceAllAux (p : Char) (ps rep : List Char) : Nat → List Char → List Char
  | _, [] => []
  | 0, l => l
  | fuel + 1, c :: cs =>
    if (p :: ps).isPrefixOf (c :: cs) then
      rep ++ replaceAllAux p ps rep fuel (cs.drop ps.length)
    else
      c :: replaceAllAux p ps rep fuel cs

/-- Python str.replace on strings; the empty-pattern case never occurs in this
code base and is modelled as the identity. -/
def pyReplace (s pat rep : String) : String :=
  match pat.data with
  | [] => s
  | p :: ps => String.mk (replaceAllAux p ps rep.data s.data.length s.data)

/-- Python substring containment (the `in` operator) on strings. -/
def pyContains (s pat : String) : Bool :=
  listContains pat.data s.data

/-- Python str.endswith. -/
def pyEndsWith (s suffix : String) : Bool :=
  suffix.data.reverse.isPrefixOf s.data.reverse

/-- Python str.startswith. -/
def pyStartsWith (s pre : String) : Bool :=
  pre.data.isPrefixOf s.data

/-- Embeds get_websocket_url (connection.py, lines 28-36): reject URLs without
a scheme separator, apply str.replace of "http" by "ws" to the whole URL,
append "/ws" unless the URL already ends with it, and apply str.replace of
"//ws" by "/ws" to the result. -/
def get_websocket_url (url : String) : Except MAError String :=
  if url = "" ∨ pyContains url "://" = false then
    .error .RuntimeError
  else
    let ws_url := pyReplace url "http" "ws"
    let ws_url2 := if pyEndsWith ws_url "/ws" then ws_url else ws_url ++ "/ws"
    .ok (pyReplace ws_url2 "//ws" "/ws")

/-- Frame types of the websocket protocol (aiohttp.WSMsgType), restricted to the
members the client code distinguishes plus representative other members. -/
inductive WSMsgType where
  | TEXT
  | BINARY
  | PING
  | PONG
  | CLOSE
  | CLOSED
  | CLOSING
  | ERROR
deriving DecidableEq, Repr

/-- One inbound websocket frame: its type and (for text frames) its payload. -/
structure WSMessage where
  type : WSMsgType
  data : String
deriving DecidableEq, Repr

/-- Minimal JSON value type standing for decoded message payloads. -/
inductive Json where
  | null
  | bool (b : Bool)
  | num (n : Int)
  | str (s : String)
  | arr (elems : List Json)
  | obj (fields : List (String × Json))

/-- Embeds WebsocketsConnection.receive_message (connection.py, lines 149-173).
The JSON decoder json_loads (from helpers.py, which is not under src/) is
abstracted as a parse function returning none exactly when decoding raises
(TypeError or ValueError, both mapped to InvalidMessage by the code). -/
def receive_message (parse : String → Option Json) (ws_msg : WSMessage) :
    Except MAError Json :=
  if ws_msg.type = .CLOSE ∨ ws_msg.type = .CLOSED ∨ ws_msg.type = .CLOSING then
    .error .ConnectionClosed
  else if ws_msg.type = .ERROR then
    .error .ConnectionFailed
  else if ws_msg.type ≠ .TEXT then
    .error .InvalidMessage
  else
    match parse ws_msg.data with
    | none => .error .InvalidMessage
    | some msg => .ok msg

/-- The ws client handle returned by ws_connect: whether it has been closed,
and the frames sent on it (recorded so that transmissions are observable). -/
structure WSClient where
  closed : Bool
  sentFrames : List String
deriving DecidableEq, Repr

/-- State of a WebsocketsConnection instance: the fields set by the constructor
(connection.py, lines 42-63).  hasSession models whether _aiohttp_session is
not None; sessionProvided models _aiohttp_session_provided. -/
structure ConnectionState where
  ws_server_url : String
  sslContextProvided : Bool
  sessionProvided : Bool
  hasSession : Bool
  ws_client : Option WSClient
deriving DecidableEq, Repr

/-- Embeds WebsocketsConnection.__init__ (connection.py, lines 42-63): the URL
is normalised by get_websocket_url (whose RuntimeError propagates), a session
is always present afterwards (provided or freshly created), and no ws client
exists yet. -/
def initConnection (server_url : String) (aiohttp_session_provided : Bool)
    (ssl_context_provided : Bool) : Except MAError ConnectionState :=
  match get_websocket_url server_url with
  | .error e => .error e
  | .ok ws_url =>
      .ok { ws_server_url := ws_url
            sslContextProvided := ssl_context_provided
            sessionProvided := aiohttp_session_provided
            hasSession := true
            ws_client := none }

/-- Embeds the connected property (connection.py, lines 65-68). -/
def connected (st : ConnectionState) : Bool :=
  match st.ws_client with
  | some ws => !ws.closed
  | none => false

/-- The ssl argument passed to ws_connect (connection.py, lines 80-89):
the default aiohttp context (certificate verification on) for wss URLs without a
custom context, the custom context when one was supplied, no SSL otherwise. -/
inductive SslParam where
  | defaultContext
  | customContext
  | noSsl
deriving DecidableEq, Repr

/-- Embeds the ssl_param selection inside connect (connection.py, lines 80-89). -/
def ssl_param (st : ConnectionState) : SslParam :=
  if pyStartsWith st.ws_server_url "wss://" = true ∧ st.sslContextProvided = false then
    .defaultContext
  else if st.sslContextProvided = true then
    .customContext
  else
    .noSsl

/-- The exception kinds ws_connect can raise that connect catches
(connection.py, lines 101-137). -/
inductive ConnectFailKind where
  | sslError
  | clientConnectorCertificateError
  | wsServerHandshakeError
  | clientError
deriving DecidableEq, Repr

/-- Which CannotConnect detail each caught exception kind is reported with:
the two certificate branches log and distinguish a certificate-trust failure,
the handshake and generic client branches do not. -/
def failDetail : ConnectFailKind → CannotConnectDetail
  | .sslError => .certificateTrust
  | .clientConnectorCertificateError => .certificateTrust
  | .wsServerHandshakeError => .other
  | .clientError => .other

/-- Outcome of the network interaction inside connect: either ws_connect raises
one of the caught exception kinds, or the handshake succeeds and the first
inbound frame is delivered by the subsequent receive. -/
inductive ConnectOutcome where
  | fail (kind : ConnectFailKind)
  | handshakeOk (firstFrame : WSMessage)
deriving DecidableEq, Repr

/-- Embeds WebsocketsConnection.connect (connection.py, lines 70-137): ensure a
session exists, fail with InvalidState if a ws client already exists, otherwise
either map a ws_connect failure to CannotConnect or store the new ws client and
return the result of receive_message on the first inbound frame.  Returns the
result of the call together with the post-state. -/
def connect (parse : String → Option Json) (st : ConnectionState)
    (outcome : ConnectOutcome) : Except MAError Json × ConnectionState :=
  let st1 := if st.hasSession then st else { st with hasSession := true }
  if st1.ws_client.isSome then
    (.error .InvalidState, st1)
  else
    match outcome with
    | .fail kind => (.error (.CannotConnect (failDetail kind)), st1)
    | .handshakeOk firstFrame =>
        let st2 := { st1 with ws_client := some { closed := false, sentFrames := [] } }
        (receive_message parse firstFrame, st2)

/-- External resources a call may release. -/
inductive Action where
  | closeSocket
  | closeSession
deriving DecidableEq, Repr

/-- Embeds WebsocketsConnection.disconnect (connection.py, lines 139-147):
close the ws client if present and not yet closed, drop it, and close the
aiohttp session only when it exists and was not provided by the caller.  Also
returns the list of resources the call actually closed. -/
def disconnect (st : ConnectionState) : ConnectionState × List Action :=
  let socketActs : List Action :=
    match st.ws_client with
    | some ws => if ws.closed = false then [Action.closeSocket] else []
    | none => []
  let st1 := { st with ws_client := none }
  if st1.hasSession = true ∧ st1.sessionProvided = false then
    ({ st1 with hasSession := false }, socketActs ++ [Action.closeSession])
  else
    (st1, socketActs)

/-- Embeds WebsocketsConnection.send_message (connection.py, lines 175-190).
The serializer json_dumps (from helpers.py, not under src/) is abstracted as
dumps; a successful send appends exactly one serialized text frame to the ws
sent frames of the client.  Returns the result of the call together with the post-state. -/
def send_message (dumps : Json → String) (st : ConnectionState) (message : Json) :
    Except MAError Unit × ConnectionState :=
  if connected st = false then
    (.error .NotConnected, st)
  else
    match st.ws_client with
    | none => (.error .NotConnected, st)
    | some ws =>
        (.ok (),
          { st with
            ws_client := some { ws with sentFrames := ws.sentFrames ++ [dumps message] } })

/-- Outcome of one REST request: either a response with an HTTP status code
was received, or aiohttp raised a ClientError during the request. -/
inductive RestOutcome where
  | status (code : Nat)
  | clientError
deriving DecidableEq, Repr

/-- Result of one REST helper call: the raised error (or success, with body
decoding on the 200 path elided) and the resources the call released. -/
structure RestResult where
  result : Except MAError Unit
  actions : List Action
deriving DecidableEq, Repr

namespace Auth

/-- Embeds the response handling of auth.login (auth.py, lines 59-84): status
401 raises LoginFailed, any other non-200 status raises CannotConnect, a
ClientError raises CannotConnect, and the finally clause closes the session
only when it was not provided by the caller. -/
def login (session_provided : Bool) (outcome : RestOutcome) : RestResult :=
  let r : Except MAError Unit :=
    match outcome with
    | .clientError => .error (.CannotConnect .other)
    | .status code =>
        if code = 401 then .error .LoginFailed
        else if code ≠ 200 then .error (.CannotConnect .other)
        else .ok ()
  { result := r
    actions := if session_provided then [] else [Action.closeSession] }

/-- Embeds the response handling of auth.create_long_lived_token (auth.py,
lines 124-149): status 401 raises AuthenticationFailed, any other non-200
status and ClientError raise CannotConnect; same finally clause. -/
def create_long_lived_token (session_provided : Bool) (outcome : RestOutcome) :
    RestResult :=
  let r : Except MAError Unit :=
    match outcome with
    | .clientError => .error (.CannotConnect .other)
    | .status code =>
        if code = 401 then .error .AuthenticationFailed
        else if code ≠ 200 then .error (.CannotConnect .other)
        else .ok ()
  { result := r
    actions := if session_provided then [] else [Action.closeSession] }

/-- Embeds the response handling of auth.get_current_user (auth.py, lines
187-208): same status mapping as create_long_lived_token. -/
def get_current_user (session_provided : Bool) (outcome : RestOutcome) :
    RestResult :=
  let r : Except MAError Unit :=
    match outcome with
    | .clientError => .error (.CannotConnect .other)
    | .status code =>
        if code = 401 then .error .AuthenticationFailed
        else if code ≠ 200 then .error (.CannotConnect .other)
        else .ok ()
  { result := r
    actions := if session_provided then [] else [Action.closeSession] }

/-- Embeds the response handling of auth.list_tokens (auth.py, lines 246-267). -/
def list_tokens (session_provided : Bool) (outcome : RestOutcome) : RestResult :=
  let r : Except MAError Unit :=
    match outcome with
    | .clientError => .error (.CannotConnect .other)
    | .status code =>
        if code = 401 then .error .AuthenticationFailed
        else if code ≠ 200 then .error (.CannotConnect .other)
        else .ok ()
  { result := r
    actions := if session_provided then [] else [Action.closeSession] }

/-- Embeds the response handling of auth.revoke_token (auth.py, lines 304-324). -/
def revoke_token (session_provided : Bool) (outcome : RestOutcome) : RestResult :=
  let r : Except MAError Unit :=
    match outcome with
    | .clientError => .error (.CannotConnect .other)
    | .status code =>
        if code = 401 then .error .AuthenticationFailed
        else if code ≠ 200 then .error (.CannotConnect .other)
        else .ok ()
  { result := r
    actions := if session_provided then [] else [Action.closeSession] }

end Auth

namespace AuthHelpers

/-- Embeds the response handling of auth_helpers.login (auth_helpers.py, lines
64-89), textually identical to auth.login. -/
def login (session_provided : Bool) (outcome : RestOutcome) : RestResult :=
  let r : Except MAError Unit :=
    match outcome with
    | .clientError => .error (.CannotConnect .other)
    | .status code =>
        if code = 401 then .error .LoginFailed
        else if code ≠ 200 then .error (.CannotConnect .other)
        else .ok ()
  { result := r
    actions := if session_provided then [] else [Action.closeSession] }

/-- Embeds the response handling of auth_helpers.get_server_info
(auth_helpers.py, lines 202-215): any non-200 status and any ClientError raise
CannotConnect; same finally clause. -/
def get_server_info (session_provided : Bool) (outcome : RestOutcome) :
    RestResult :=
  let r : Except MAError Unit :=
    match outcome with
    | .clientError => .error (.CannotConnect .other)
    | .status code =>
        if code ≠ 200 then .error (.CannotConnect .other)
        else .ok ()
  { result := r
    actions := if session_provided then [] else [Action.closeSession] }

end AuthHelpers

/-- Modelled from the spec: the Command Dispatcher (MusicAssistantClient in
client.py) is not under src/.  Per the spec, sendCommand allocates the next
message id for each outbound CommandMessage; ids start at the configured start
value (1 on a fresh Connection) and each call uses the current value and
increments it, within the lifetime of one Connection. -/
structure CommandDispatcher where
  nextMessageId : Nat
deriving DecidableEq, Repr

/-- The dispatcher of a fresh Connection, with the default start value 1. -/
def newDispatcher : CommandDispatcher :=
  { nextMessageId := 1 }

/-- Modelled from the spec: sendCommand assigns the current message id to the
outbound CommandMessage and advances the dispatcher. -/
def sendCommand (d : CommandDispatcher) (command : String) :
    (Nat × String) × CommandDispatcher :=
  ((d.nextMessageId, command), { nextMessageId := d.nextMessageId + 1 })

/-- Message ids assigned to a sequence of sendCommand calls on one
Connection. -/
def commandIds (d : CommandDispatcher) : List String → List Nat
  | [] => []
  | command :: rest =>
      let (msg, d2) := sendCommand d command
      msg.1 :: commandIds d2 rest

/-- A concrete parse function for instantiating theorems: decodes the literal
text "null" and rejects everything else. -/
def parseDemo : String → Option Json :=
  fun s => if s = "null" then some .null else none

/-- A concrete serializer for instantiating theorems. -/
def dumpsDemo : Json → String :=
  fun _ => "null"

/-- A freshly constructed connection (caller-provided session, no ws client). -/
def stFresh : ConnectionState :=
  { ws_server_url := "ws://host/ws"
    sslContextProvided := false
    sessionProvided := true
    hasSession := true
    ws_client := none }

/-- A connection holding an open websocket. -/
def stOpen : ConnectionState :=
  { stFresh with ws_client := some { closed := false, sentFrames := [] } }

/-- A connection to a wss endpoint with no custom SSL context. -/
def stWss : ConnectionState :=
  { stFresh with ws_server_url := "wss://host/ws" }

/-! Helper lemmas shared between the claim theorems. -/

/-- After disconnect the instance holds no websocket client. -/
theorem connected_after_disconnect (st : ConnectionState) :
    connected (disconnect st).1 = false := by
  obtain ⟨url, sslp, sp, hs, wsc⟩ := st
  cases hs <;> cases sp <;> simp [disconnect, connected]

/-- send_message on a non-connected state fails and changes nothing. -/
theorem send_message_of_not_connected (dumps : Json → String)
    (st : ConnectionState) (m : Json) (h : connected st = false) :
    send_message dumps st m = (.error .NotConnected, st) := by
  simp [send_message, h]

/-- The result component of connect on a state without a websocket client is
the result of receiving the first inbound frame. -/
theorem connect_fst_of_no_client (parse : String → Option Json)
    (st : ConnectionState) (frame : WSMessage) (h : st.ws_client = none) :
    (connect parse st (.handshakeOk frame)).1 = receive_message parse frame := by
  by_cases hs : st.hasSession <;> simp [connect, h, hs]

/-- replaceAllAux leaves a list without any occurrence of the pattern
unchanged, for every fuel value. -/
theorem replaceAllAux_of_not_contains (p : Char) (ps rep : List Char) (fuel : Nat)
    (l : List Char) (h : listContains (p :: ps) l = false) :
    replaceAllAux p ps rep fuel l = l := by
  induction fuel generalizing l with
  | zero => cases l <;> rfl
  | succ fuel ih =>
      cases l with
      | nil => rfl
      | cons c cs =>
          simp only [listContains, Bool.or_eq_false_iff] at h
          simp [replaceAllAux, h.1, ih cs h.2]

/-- Unfolding step of replaceAllAux when the pattern matches at the head. -/
theorem replaceAllAux_cons_match (p : Char) (ps rep : List Char) (fuel : Nat)
    (c : Char) (cs : List Char) (hm : (p :: ps).isPrefixOf (c :: cs) = true) :
    replaceAllAux p ps rep (fuel + 1) (c :: cs)
      = rep ++ replaceAllAux p ps rep fuel (cs.drop ps.length) := by
  simp [replaceAllAux, hm]

/-- Unfolding step of replaceAllAux when the pattern does not match at the
head. -/
theorem replaceAllAux_cons_ne (p : Char) (ps rep : List Char) (fuel : Nat)
    (c : Char) (cs : List Char) (hm : (p :: ps).isPrefixOf (c :: cs) = false) :
    replaceAllAux p ps rep (fuel + 1) (c :: cs) = c :: replaceAllAux p ps rep fuel cs := by
  simp [replaceAllAux, hm]

/-- Replacing "http" by "ws" in a URL of shape http:// followed by a remainder
containing no further occurrence of "http" rewrites exactly the scheme token. -/
theorem replaceAllAux_http_scheme_ws (rest : List Char)
    (h : listContains ['h','t','t','p'] rest = false) (fuel : Nat) :
    replaceAllAux 'h' ['t','t','p'] ['w','s'] (fuel + 7)
        ('h' :: 't' :: 't' :: 'p' :: ':' :: '/' :: '/' :: rest) = 'w' :: 's' :: ':' :: '/' :: '/' :: rest := by
  have s1 : replaceAllAux 'h' ['t','t','p'] ['w','s'] (fuel + 7)
      ('h' :: 't' :: 't' :: 'p' :: ':' :: '/' :: '/' :: rest)
      = ['w','s'] ++ replaceAllAux 'h' ['t','t','p'] ['w','s'] (fuel + 6)
          (':' :: '/' :: '/' :: rest) := by
    show replaceAllAux 'h' ['t','t','p'] ['w','s'] ((fuel + 6) + 1)
        ('h' :: 't' :: 't' :: 'p' :: ':' :: '/' :: '/' :: rest) = _
    rw [replaceAllAux_cons_match _ _ _ _ _ _ (by simp [List.isPrefixOf])]
    rfl
  rw [s1]
  show ['w','s'] ++ replaceAllAux 'h' ['t','t','p'] ['w','s'] ((fuel + 5) + 1)
      (':' :: '/' :: '/' :: rest) = _
  rw [replaceAllAux_cons_ne _ _ _ _ _ _ (by simp [List.isPrefixOf])]
  show ['w','s'] ++ (':' :: replaceAllAux 'h' ['t','t','p'] ['w','s'] ((fuel + 4) + 1)
      ('/' :: '/' :: rest)) = _
  rw [replaceAllAux_cons_ne _ _ _ _ _ _ (by simp [List.isPrefixOf])]
  show ['w','s'] ++ (':' :: '/' :: replaceAllAux 'h' ['t','t','p'] ['w','s'] ((fuel + 3) + 1)
      ('/' :: rest)) = _
  rw [replaceAllAux_cons_ne _ _ _ _ _ _ (by simp [List.isPrefixOf])]
  rw [replaceAllAux_of_not_contains _ _ _ _ _ h]
  rfl

/-- Same as replaceAllAux_http_scheme_ws for an https:// URL: the scheme token
becomes wss. -/
theorem replaceAllAux_https_scheme_wss (rest : List Char)
    (h : listContains ['h','t','t','p'] rest = false) (fuel : Nat) :
    replaceAllAux 'h' ['t','t','p'] ['w','s'] (fuel + 8)
        ('h' :: 't' :: 't' :: 'p' :: 's' :: ':' :: '/' :: '/' :: rest)
      = 'w' :: 's' :: 's' :: ':' :: '/' :: '/' :: rest := by
  have s1 : replaceAllAux 'h' ['t','t','p'] ['w','s'] (fuel + 8)
      ('h' :: 't' :: 't' :: 'p' :: 's' :: ':' :: '/' :: '/' :: rest)
      = ['w','s'] ++ replaceAllAux 'h' ['t','t','p'] ['w','s'] (fuel + 7)
          ('s' :: ':' :: '/' :: '/' :: rest) := by
    show replaceAllAux 'h' ['t','t','p'] ['w','s'] ((fuel + 7) + 1)
        ('h' :: 't' :: 't' :: 'p' :: 's' :: ':' :: '/' :: '/' :: rest) = _
    rw [replaceAllAux_cons_match _ _ _ _ _ _ (by simp [List.isPrefixOf])]
    rfl
  rw [s1]
  show ['w','s'] ++ replaceAllAux 'h' ['t','t','p'] ['w','s'] ((fuel + 6) + 1)
      ('s' :: ':' :: '/' :: '/' :: rest) = _
  rw [replaceAllAux_cons_ne _ _ _ _ _ _ (by simp [List.isPrefixOf])]
  show ['w','s'] ++ ('s' :: replaceAllAux 'h' ['t','t','p'] ['w','s'] ((fuel + 5) + 1)
      (':' :: '/' :: '/' :: rest)) = _
  rw [replaceAllAux_cons_ne _ _ _ _ _ _ (by simp [List.isPrefixOf])]
  show ['w','s'] ++ ('s' :: ':' :: replaceAllAux 'h' ['t','t','p'] ['w','s'] ((fuel + 4) + 1)
      ('/' :: '/' :: rest)) = _
  rw [replaceAllAux_cons_ne _ _ _ _ _ _ (by simp [List.isPrefixOf])]
  show ['w','s'] ++ ('s' :: ':' :: '/' :: replaceAllAux 'h' ['t','t','p'] ['w','s']
      ((fuel + 3) + 1) ('/' :: rest)) = _
  rw [replaceAllAux_cons_ne _ _ _ _ _ _ (by simp [List.isPrefixOf])]
  rw [replaceAllAux_of_not_contains _ _ _ _ _ h]
  rfl

/-- pyReplace is the identity when the pattern does not occur in the string. -/
theorem pyReplace_eq_self_of_not_contains (s pat rep : String)
    (h : pyContains s pat = false) : pyReplace s pat rep = s := by
  unfold pyReplace
  unfold pyContains at h
  cases hp : pat.data with
  | nil => rfl
  | cons p ps =>
      rw [hp] at h
      show String.mk (replaceAllAux p ps rep.data s.data.length s.data) = s
      rw [replaceAllAux_of_not_contains _ _ _ _ _ h]

/-- The scheme rewrite at string level for an http URL: only the scheme token
changes when the remainder contains no occurrence of "http". -/
theorem pyReplace_http_ws (rest : String) (hh : pyContains rest "http" = false) :
    pyReplace ("http://" ++ rest) "http" "ws" = "ws://" ++ rest := by
  apply String.ext
  show replaceAllAux 'h' ['t','t','p'] ['w','s']
      ("http://" ++ rest).data.length ("http://" ++ rest).data = ("ws://" ++ rest).data
  rw [String.data_append, String.data_append]
  show replaceAllAux 'h' ['t','t','p'] ['w','s']
      (('h' :: 't' :: 't' :: 'p' :: ':' :: '/' :: '/' :: rest.data)).length
      ('h' :: 't' :: 't' :: 'p' :: ':' :: '/' :: '/' :: rest.data) = 'w' :: 's' :: ':' :: '/' :: '/' :: rest.data
  have hlen : ('h' :: 't' :: 't' :: 'p' :: ':' :: '/' :: '/' :: rest.data).length = rest.data.length + 7 := by
    simp
  rw [hlen]
  exact replaceAllAux_http_scheme_ws rest.data hh rest.data.length

/-- The scheme rewrite at string level for an https URL. -/
theorem pyReplace_https_wss (rest : String) (hh : pyContains rest "http" = false) :
    pyReplace ("https://" ++ rest) "http" "ws" = "wss://" ++ rest := by
  apply String.ext
  show replaceAllAux 'h' ['t','t','p'] ['w','s']
      ("https://" ++ rest).data.length ("https://" ++ rest).data = ("wss://" ++ rest).data
  rw [String.data_append, String.data_append]
  show replaceAllAux 'h' ['t','t','p'] ['w','s']
      (('h' :: 't' :: 't' :: 'p' :: 's' :: ':' :: '/' :: '/' :: rest.data)).length
      ('h' :: 't' :: 't' :: 'p' :: 's' :: ':' :: '/' :: '/' :: rest.data)
      = 'w' :: 's' :: 's' :: ':' :: '/' :: '/' :: rest.data
  have hlen : ('h' :: 't' :: 't' :: 'p' :: 's' :: ':' :: '/' :: '/' :: rest.data).length
      = rest.data.length + 8 := by
    simp
  rw [hlen]
  exact replaceAllAux_https_scheme_wss rest.data hh rest.data.length

/-- Every http URL contains the scheme separator. -/
theorem pyContains_sep_http (rest : String) :
    pyContains ("http://" ++ rest) "://" = true := by
  show listContains [':','/','/'] ("http://" ++ rest).data = true
  rw [String.data_append]
  show listContains [':','/','/'] ('h' :: 't' :: 't' :: 'p' :: ':' :: '/' :: '/' :: rest.data) = true
  simp [listContains, List.isPrefixOf]

/-- Every https URL contains the scheme separator. -/
theorem pyContains_sep_https (rest : String) :
    pyContains ("https://" ++ rest) "://" = true := by
  show listContains [':','/','/'] ("https://" ++ rest).data = true
  rw [String.data_append]
  show listContains [':','/','/'] ('h' :: 't' :: 't' :: 'p' :: 's' :: ':' :: '/' :: '/' :: rest.data) = true
  simp [listContains, List.isPrefixOf]

/-- An http URL is not the empty string. -/
theorem http_append_ne_empty (rest : String) : ("http://" ++ rest) ≠ "" := by
  intro h
  have h2 : ("http://" ++ rest).data = [] := by rw [h]
  rw [String.data_append] at h2
  exact absurd h2 (List.cons_ne_nil _ _)

/-- An https URL is not the empty string. -/
theorem https_append_ne_empty (rest : String) : ("https://" ++ rest) ≠ "" := by
  intro h
  have h2 : ("https://" ++ rest).data = [] := by rw [h]
  rw [String.data_append] at h2
  exact absurd h2 (List.cons_ne_nil _ _)

/-! Claim theorems. -/

/-- C1: receive_message classifies every inbound frame exactly by its message
type: a close-type frame (CLOSE, CLOSED or CLOSING) raises ConnectionClosed,
an error-type frame raises ConnectionFailed, any other non-text frame raises
InvalidMessage, a text frame whose payload does not decode as JSON raises
InvalidMessage, and a text frame with valid JSON returns the decoded value
without raising. -/
theorem receive_message_classifies (parse : String → Option Json) (m : WSMessage) :
    ((m.type = .CLOSE ∨ m.type = .CLOSED ∨ m.type = .CLOSING) →
      receive_message parse m = .error .ConnectionClosed)
    ∧ (m.type = .ERROR → receive_message parse m = .error .ConnectionFailed)
    ∧ (m.type ≠ .CLOSE → m.type ≠ .CLOSED → m.type ≠ .CLOSING → m.type ≠ .ERROR →
        m.type ≠ .TEXT → receive_message parse m = .error .InvalidMessage)
    ∧ (m.type = .TEXT → parse m.data = none →
        receive_message parse m = .error .InvalidMessage)
    ∧ (∀ j, m.type = .TEXT → parse m.data = some j →
        receive_message parse m = .ok j) := by
  refine ⟨fun h => ?_, fun h => ?_, fun h1 h2 h3 h4 h5 => ?_,
    fun h hp => ?_, fun j h hp => ?_⟩
  · simp [receive_message, h]
  · simp [receive_message, h]
  · simp [receive_message, h1, h2, h3, h4, h5]
  · simp [receive_message, h, hp]
  · simp [receive_message, h, hp]

/-- C1 witness: the classification at one concrete frame of each kind. -/
theorem receive_message_classifies_witness :
    receive_message parseDemo ⟨.CLOSE, ""⟩ = .error .ConnectionClosed
    ∧ receive_message parseDemo ⟨.ERROR, ""⟩ = .error .ConnectionFailed
    ∧ receive_message parseDemo ⟨.BINARY, ""⟩ = .error .InvalidMessage
    ∧ receive_message parseDemo ⟨.TEXT, "x"⟩ = .error .InvalidMessage
    ∧ receive_message parseDemo ⟨.TEXT, "null"⟩ = .ok .null :=
  ⟨(receive_message_classifies parseDemo ⟨.CLOSE, ""⟩).1 (Or.inl rfl),
   (receive_message_classifies parseDemo ⟨.ERROR, ""⟩).2.1 rfl,
   (receive_message_classifies parseDemo ⟨.BINARY, ""⟩).2.2.1
     (by simp) (by simp) (by simp) (by simp) (by simp),
   (receive_message_classifies parseDemo ⟨.TEXT, "x"⟩).2.2.2.1 rfl (by simp [parseDemo]),
   (receive_message_classifies parseDemo ⟨.TEXT, "null"⟩).2.2.2.2 .null rfl
     (by simp [parseDemo])⟩

/-- C2 counterexample: the scheme rewrite is a global str.replace of "http" by
"ws", so for the base URL "http://httpbin.org" the host is rewritten as well,
and the later collapse of "//ws" then also mangles the scheme separator: the
code returns "ws:/wsbin.org/ws" instead of the "ws://httpbin.org/ws" the claim
requires (host, port and path left unchanged). -/
theorem get_websocket_url_counterexample :
    get_websocket_url "http://httpbin.org" = .ok "ws:/wsbin.org/ws"
    ∧ get_websocket_url "http://httpbin.org" ≠ .ok "ws://httpbin.org/ws" := by
  constructor <;> decide

/-- C2 (amended): get_websocket_url replaces every occurrence of "http" in the
whole URL by "ws" (https thus becomes wss), appends the "/ws" upgrade segment
unless the URL already ends with it, and collapses "//ws" to "/ws" globally.
Only when the remainder after the scheme separator contains no occurrence of
"http", and the collapse step finds nothing to rewrite, is the rest of the URL
left unchanged with the "/ws" segment appended. -/
theorem get_websocket_url_amended (rest : String)
    (hhttp : pyContains rest "http" = false)
    (hend : pyEndsWith ("ws://" ++ rest) "/ws" = false)
    (hdup : pyContains ("ws://" ++ rest ++ "/ws") "//ws" = false)
    (hends : pyEndsWith ("wss://" ++ rest) "/ws" = false)
    (hdups : pyContains ("wss://" ++ rest ++ "/ws") "//ws" = false) :
    get_websocket_url ("http://" ++ rest) = .ok ("ws://" ++ rest ++ "/ws")
    ∧ get_websocket_url ("https://" ++ rest) = .ok ("wss://" ++ rest ++ "/ws") := by
  constructor
  · have hcond : ¬(("http://" ++ rest) = ""
        ∨ pyContains ("http://" ++ rest) "://" = false) := by
      rintro (h | h)
      · exact http_append_ne_empty rest h
      · rw [pyContains_sep_http rest] at h
        cases h
    simp only [get_websocket_url]
    rw [if_neg hcond, pyReplace_http_ws rest hhttp,
      if_neg (by simp [hend]), pyReplace_eq_self_of_not_contains _ _ _ hdup]
  · have hcond : ¬(("https://" ++ rest) = ""
        ∨ pyContains ("https://" ++ rest) "://" = false) := by
      rintro (h | h)
      · exact https_append_ne_empty rest h
      · rw [pyContains_sep_https rest] at h
        cases h
    simp only [get_websocket_url]
    rw [if_neg hcond, pyReplace_https_wss rest hhttp,
      if_neg (by simp [hends]), pyReplace_eq_self_of_not_contains _ _ _ hdups]

/-- C2 amended witness: the rewrite at a concrete host and port. -/
theorem get_websocket_url_amended_witness :
    pyContains "demo.org:8095" "http" = false
    ∧ get_websocket_url ("http://" ++ "demo.org:8095") =
        .ok ("ws://" ++ "demo.org:8095" ++ "/ws")
    ∧ get_websocket_url ("https://" ++ "demo.org:8095") =
        .ok ("wss://" ++ "demo.org:8095" ++ "/ws") :=
  ⟨by decide,
   (get_websocket_url_amended "demo.org:8095" (by decide) (by decide) (by decide)
      (by decide) (by decide)).1,
   (get_websocket_url_amended "demo.org:8095" (by decide) (by decide) (by decide)
      (by decide) (by decide)).2⟩

/-- C3: on a state with no websocket client, the result of connect with a
successful handshake is exactly the result of receiving and parsing the first
inbound frame: connect succeeds with value v only when that frame parses to v,
and fails whenever receiving or parsing the first frame fails. -/
theorem connect_returns_first_frame (parse : String → Option Json)
    (st : ConnectionState) (frame : WSMessage) (h : st.ws_client = none) :
    (connect parse st (.handshakeOk frame)).1 = receive_message parse frame
    ∧ (∀ j, receive_message parse frame = .ok j →
        (connect parse st (.handshakeOk frame)).1 = .ok j)
    ∧ (∀ e, receive_message parse frame = .error e →
        (connect parse st (.handshakeOk frame)).1 = .error e) := by
  have h1 := connect_fst_of_no_client parse st frame h
  exact ⟨h1, fun j hj => h1.trans hj, fun e he => h1.trans he⟩

/-- C3 witness: connect on a fresh instance returns the parsed first frame. -/
theorem connect_returns_first_frame_witness :
    stFresh.ws_client = none
    ∧ (connect parseDemo stFresh (.handshakeOk ⟨.TEXT, "null"⟩)).1 =
        receive_message parseDemo ⟨.TEXT, "null"⟩ :=
  ⟨rfl, (connect_returns_first_frame parseDemo stFresh ⟨.TEXT, "null"⟩ rfl).1⟩

/-- C5: send_message fails with NotConnected and transmits nothing whenever the
instance is not connected, in particular on a freshly constructed instance and
after disconnect; when connected it appends exactly one serialized frame to the
sent frames of the websocket client. -/
theorem send_message_requires_connected (dumps : Json → String)
    (st : ConnectionState) (m : Json) :
    (connected st = false → send_message dumps st m = (.error .NotConnected, st))
    ∧ (∀ ws, st.ws_client = some ws → ws.closed = false →
        send_message dumps st m =
          (.ok (),
            { st with
              ws_client := some { ws with sentFrames := ws.sentFrames ++ [dumps m] } }))
    ∧ (∀ url sp cp st2, initConnection url sp cp = .ok st2 →
        send_message dumps st2 m = (.error .NotConnected, st2))
    ∧ send_message dumps (disconnect st).1 m = (.error .NotConnected, (disconnect st).1) := by
  refine ⟨fun h => send_message_of_not_connected dumps st m h,
    fun ws hws hc => ?_, fun url sp cp st2 hinit => ?_,
    send_message_of_not_connected dumps (disconnect st).1 m (connected_after_disconnect st)⟩
  · simp [send_message, connected, hws, hc]
  · revert hinit
    cases hget : get_websocket_url url with
    | error e => simp [initConnection, hget]
    | ok u =>
        intro hinit
        simp [initConnection, hget] at hinit
        subst hinit
        exact send_message_of_not_connected dumps _ m rfl

/-- C5 witness: a fresh instance rejects a send; an open instance transmits one
frame. -/
theorem send_message_requires_connected_witness :
    send_message dumpsDemo stFresh .null = (.error .NotConnected, stFresh)
    ∧ send_message dumpsDemo stOpen .null =
        (.ok (), { stFresh with ws_client := some { closed := false, sentFrames := ["null"] } }) :=
  ⟨(send_message_requires_connected dumpsDemo stFresh .null).1 rfl,
   (send_message_requires_connected dumpsDemo stOpen .null).2.1
     { closed := false, sentFrames := [] } rfl rfl⟩

/-- C6: connect on an instance that already holds a websocket client (with the
session still present, as after a successful connect with no disconnect since)
fails with InvalidState and leaves the state unchanged, whatever the network
would have done. -/
theorem connect_when_already_connected (parse : String → Option Json)
    (st : ConnectionState) (outcome : ConnectOutcome) (ws : WSClient)
    (hws : st.ws_client = some ws) (hs : st.hasSession = true) :
    connect parse st outcome = (.error .InvalidState, st) := by
  simp [connect, hs, hws]

/-- C6 witness: a second connect on an open instance fails with InvalidState. -/
theorem connect_when_already_connected_witness :
    connect parseDemo stOpen (.handshakeOk ⟨.TEXT, "null"⟩) =
      (.error .InvalidState, stOpen) :=
  connect_when_already_connected parseDemo stOpen (.handshakeOk ⟨.TEXT, "null"⟩)
    { closed := false, sentFrames := [] } rfl rfl

/-- C7: disconnect is idempotent: a second disconnect leaves the state reached
by the first one unchanged, performs no further resource release, and the
instance is not connected after each of the two calls; moreover a disconnect
closes the socket exactly when it was open and releases a session only when it
was created internally. -/
theorem disconnect_idempotent (st : ConnectionState) :
    (disconnect (disconnect st).1).1 = (disconnect st).1
    ∧ connected (disconnect st).1 = false
    ∧ connected (disconnect (disconnect st).1).1 = false
    ∧ (disconnect (disconnect st).1).2 = []
    ∧ (Action.closeSocket ∈ (disconnect st).2 ↔ connected st = true)
    ∧ (Action.closeSession ∈ (disconnect st).2 → st.sessionProvided = false) := by
  refine ⟨?_, connected_after_disconnect st, connected_after_disconnect _, ?_, ?_, ?_⟩
  all_goals
    obtain ⟨url, sslp, sp, hs, wsc⟩ := st
    rcases wsc with _ | ⟨c, f⟩
    · cases hs <;> cases sp <;> simp [disconnect, connected]
    · cases c <;> cases hs <;> cases sp <;> simp [disconnect, connected]

/-- C8: every ws_connect failure kind caught by connect is reported as
CannotConnect, with exactly the two certificate kinds (ssl.SSLError and
ClientConnectorCertificateError) carrying the certificate-trust detail; and for
a wss endpoint with no custom SSL context the default verifying SSL context is
used, so a certificate verification failure there surfaces as CannotConnect
with that detail. -/
theorem connect_failure_maps_to_cannot_connect (parse : String → Option Json)
    (st : ConnectionState) (kind : ConnectFailKind) (h : st.ws_client = none) :
    (connect parse st (.fail kind)).1 = .error (.CannotConnect (failDetail kind))
    ∧ ((kind = .sslError ∨ kind = .clientConnectorCertificateError) ↔
        failDetail kind = .certificateTrust)
    ∧ (pyStartsWith st.ws_server_url "wss://" = true → st.sslContextProvided = false →
        ssl_param st = .defaultContext) := by
  refine ⟨?_, ?_, fun h1 h2 => ?_⟩
  · by_cases hs : st.hasSession <;> simp [connect, h, hs]
  · cases kind <;> simp [failDetail]
  · simp [ssl_param, h1, h2]

/-- C8 witness: a certificate failure on a wss endpoint without custom context
yields CannotConnect with the certificate-trust detail. -/
theorem connect_failure_maps_to_cannot_connect_witness :
    stWss.ws_client = none
    ∧ (connect parseDemo stWss (.fail .clientConnectorCertificateError)).1 =
        .error (.CannotConnect .certificateTrust)
    ∧ ssl_param stWss = .defaultContext :=
  ⟨rfl,
   (connect_failure_maps_to_cannot_connect parseDemo stWss
      .clientConnectorCertificateError rfl).1,
   (connect_failure_maps_to_cannot_connect parseDemo stWss
      .clientConnectorCertificateError rfl).2.2 (by decide) rfl⟩

/-- C9: across the REST bootstrap and auth helpers, HTTP status 401 raises the
authentication-failure error of that helper (LoginFailed for the two login
helpers, AuthenticationFailed for the token and user operations) and every
other non-200 status raises CannotConnect. -/
theorem rest_auth_status_mapping (p : Bool) (code : Nat) :
    ((Auth.login p (.status 401)).result = .error .LoginFailed
      ∧ (AuthHelpers.login p (.status 401)).result = .error .LoginFailed
      ∧ (Auth.create_long_lived_token p (.status 401)).result = .error .AuthenticationFailed
      ∧ (Auth.get_current_user p (.status 401)).result = .error .AuthenticationFailed
      ∧ (Auth.list_tokens p (.status 401)).result = .error .AuthenticationFailed
      ∧ (Auth.revoke_token p (.status 401)).result = .error .AuthenticationFailed)
    ∧ (code ≠ 401 → code ≠ 200 →
        (Auth.login p (.status code)).result = .error (.CannotConnect .other)
        ∧ (AuthHelpers.login p (.status code)).result = .error (.CannotConnect .other)
        ∧ (Auth.create_long_lived_token p (.status code)).result = .error (.CannotConnect .other)
        ∧ (Auth.get_current_user p (.status code)).result = .error (.CannotConnect .other)
        ∧ (Auth.list_tokens p (.status code)).result = .error (.CannotConnect .other)
        ∧ (Auth.revoke_token p (.status code)).result = .error (.CannotConnect .other)) := by
  constructor
  · simp [Auth.login, AuthHelpers.login, Auth.create_long_lived_token,
      Auth.get_current_user, Auth.list_tokens, Auth.revoke_token]
  · intro h1 h2
    simp [Auth.login, AuthHelpers.login, Auth.create_long_lived_token,
      Auth.get_current_user, Auth.list_tokens, Auth.revoke_token, h1, h2]

/-- C9 witness: status 500 maps to CannotConnect in every helper. -/
theorem rest_auth_status_mapping_witness :
    (Auth.login false (.status 500)).result = .error (.CannotConnect .other)
    ∧ (AuthHelpers.login false (.status 500)).result = .error (.CannotConnect .other)
    ∧ (Auth.create_long_lived_token false (.status 500)).result = .error (.CannotConnect .other)
    ∧ (Auth.get_current_user false (.status 500)).result = .error (.CannotConnect .other)
    ∧ (Auth.list_tokens false (.status 500)).result = .error (.CannotConnect .other)
    ∧ (Auth.revoke_token false (.status 500)).result = .error (.CannotConnect .other) :=
  (rest_auth_status_mapping false 500).2 (by decide) (by decide)

/-- C10: a caller-supplied aiohttp session is never closed: disconnect on an
instance whose session was provided releases no session (and leaves the session
in place), and every REST helper invoked with a provided session performs no
session close on any outcome, error outcomes included. -/
theorem provided_session_never_closed (st : ConnectionState) (out : RestOutcome)
    (h : st.sessionProvided = true) :
    (Action.closeSession ∉ (disconnect st).2
      ∧ ((disconnect st).1).hasSession = st.hasSession)
    ∧ (Auth.login true out).actions = []
    ∧ (Auth.create_long_lived_token true out).actions = []
    ∧ (Auth.get_current_user true out).actions = []
    ∧ (Auth.list_tokens true out).actions = []
    ∧ (Auth.revoke_token true out).actions = []
    ∧ (AuthHelpers.login true out).actions = []
    ∧ (AuthHelpers.get_server_info true out).actions = [] := by
  refine ⟨⟨?_, ?_⟩, rfl, rfl, rfl, rfl, rfl, rfl, rfl⟩ <;>
  · obtain ⟨url, sslp, sp, hs, wsc⟩ := st
    simp only at h
    subst h
    rcases wsc with _ | ⟨c, f⟩ <;> cases hs <;> simp [disconnect]

/-- C10 witness: disconnect and a failing REST call with a provided session
close no session. -/
theorem provided_session_never_closed_witness :
    stFresh.sessionProvided = true
    ∧ Action.closeSession ∉ (disconnect stFresh).2
    ∧ (Auth.login true .clientError).actions = [] :=
  ⟨rfl, ((provided_session_never_closed stFresh .clientError rfl).1).1,
   (provided_session_never_closed stFresh .clientError rfl).2.1⟩

/-- The ids handed out by successive sendCommand calls starting at s are the
arithmetic progression s, s+1, ... . -/
theorem commandIds_eq_range' (s : Nat) (cmds : List String) :
    commandIds { nextMessageId := s } cmds = List.range' s cmds.length := by
  induction cmds generalizing s with
  | nil => simp [commandIds]
  | cons c rest ih => simp [commandIds, sendCommand, List.range'_succ, ih]

/-- C4: within the lifetime of one Connection the message ids assigned by
sendCommand are strictly increasing and never reused, and the first call on a
fresh Connection uses id 1 (in general the configured start value followed by
its successors). -/
theorem sendCommand_ids_unique (startId : Nat) (cmds : List String) :
    commandIds { nextMessageId := startId } cmds = List.range' startId cmds.length
    ∧ (commandIds { nextMessageId := startId } cmds).Pairwise (· < ·)
    ∧ (commandIds { nextMessageId := startId } cmds).Nodup
    ∧ (∀ c rest, (commandIds newDispatcher (c :: rest)).head? = some 1) := by
  refine ⟨commandIds_eq_range' startId cmds, ?_, ?_, fun c rest => ?_⟩
  · rw [commandIds_eq_range' startId cmds]
    exact List.pairwise_lt_range' startId cmds.length
  · rw [commandIds_eq_range' startId cmds]
    exact List.nodup_range' startId cmds.length
  · simp [commandIds, sendCommand, newDispatcher]

end MusicAssistantClient

